import Mathlib

/-!
Verification of the data-cleaning pipeline in `src/utils/clean_data.py`
(bicycle-accident dataset cleaner).

The script reads a raw CSV, projects a fixed set of columns, coerces
`date`/`lat`/`long`, derives `hour` from `hrmn`, drops incomplete rows and
zero-latitude rows, casts `age` and `hour` to integers, and writes a CSV.

Embedding conventions:
* A CSV cell is `Cell`: either `missing` (empty field / NaN) or a string.
* `pd.to_datetime(·, errors='coerce')` on the `date` column is modelled by
  an ISO `YYYY-MM-DD` parser with calendar validity (the real pandas parser
  accepts more formats; the claims only distinguish parseable from not).
* `pd.to_numeric(·, errors='coerce')` is modelled by a decimal parser into
  `Rat` (optional sign, digits, optional fractional part).
* `pd.to_datetime(·, format='%H:%M', errors='coerce').dt.hour` is modelled
  by an `HH:MM` parser returning the hour (1-2 digit fields, hour ≤ 23,
  minute ≤ 59, whole string consumed), as `strptime` does.
* `.astype(int)` on an object column applies Python `int(·)` elementwise,
  modelled by an integer-literal parser that fails on non-integral text.
-/

/-- A cell of a CSV table: empty (pandas NaN/NaT) or a textual value. -/
inductive Cell where
  | missing : Cell
  | val : String → Cell
deriving DecidableEq, Repr

/-- Whether a cell is missing (pandas `isna`). -/
def Cell.isMissing : Cell → Bool
  | .missing => true
  | .val _ => false

/-- Split a character list at every occurrence of `c` (like `str.split`). -/
def splitOnChar (c : Char) : List Char → List (List Char)
  | [] => [[]]
  | x :: xs =>
    match splitOnChar c xs with
    | [] => [[]]
    | g :: gs => if x = c then [] :: g :: gs else (x :: g) :: gs

/-- Parse a non-empty all-digit character list as a natural number. -/
def digitsToNat (l : List Char) : Option Nat :=
  if l ≠ [] ∧ l.all Char.isDigit then
    some (l.foldl (fun acc ch => acc * 10 + (ch.toNat - 48)) 0)
  else none

/-- Gregorian leap-year test. -/
def isLeap (y : Nat) : Bool :=
  (y % 4 == 0 && y % 100 != 0) || y % 400 == 0

/-- Number of days in a month of the Gregorian calendar. -/
def daysInMonth (y m : Nat) : Nat :=
  if m = 2 then (if isLeap y then 29 else 28)
  else if m ∈ [4, 6, 9, 11] then 30 else 31

/-- A parsed calendar date `(year, month, day)`. -/
abbrev DateVal := Nat × Nat × Nat

/-- Model of `pd.to_datetime(s, errors='coerce')` on the `date` column:
parse `YYYY-MM-DD` with calendar validity, `none` on failure (NaT). -/
def parseDate (s : String) : Option DateVal :=
  match splitOnChar '-' s.data with
  | [ys, ms, ds] =>
    match digitsToNat ys, digitsToNat ms, digitsToNat ds with
    | some y, some m, some d =>
      if ys.length = 4 ∧ 1 ≤ m ∧ m ≤ 12 ∧ 1 ≤ d ∧ d ≤ daysInMonth y m then
        some (y, m, d)
      else none
    | _, _, _ => none
  | _ => none

/-- An exact decimal number: the value is `mantissa / 10 ^ scale`.
Used to model the floating-point values `pd.to_numeric` produces; the
pipeline only ever tests such a value for equality with 0. -/
structure Dec where
  mantissa : Int
  scale : Nat
deriving DecidableEq, Repr

/-- Whether a decimal value equals 0 (`mantissa / 10 ^ scale = 0`). -/
def Dec.isZero (d : Dec) : Bool :=
  d.mantissa == 0

/-- Model of `pd.to_numeric(s, errors='coerce')`: decimal literal with
optional leading minus and optional fractional part, `none` on failure. -/
def parseNum (s : String) : Option Dec :=
  let core : List Char → Option Dec := fun body =>
    match splitOnChar '.' body with
    | [i] => (digitsToNat i).map (fun n => ⟨(n : Int), 0⟩)
    | [i, f] =>
      match digitsToNat i, digitsToNat f with
      | some ni, some nf => some ⟨(ni * 10 ^ f.length + nf : Int), f.length⟩
      | _, _ => none
    | _ => none
  match s.data with
  | '-' :: body => (core body).map (fun d => ⟨-d.mantissa, d.scale⟩)
  | body => core body

/-- Model of `pd.to_datetime(s, format='%H:%M', errors='coerce').dt.hour`:
`strptime` matches 1-2 digits for `%H` (value ≤ 23) and for `%M`
(value ≤ 59) with nothing left over; returns the hour component. -/
def parseHourMin (s : String) : Option Nat :=
  match splitOnChar ':' s.data with
  | [hs, ms] =>
    match digitsToNat hs, digitsToNat ms with
    | some h, some m =>
      if hs.length ≤ 2 ∧ ms.length ≤ 2 ∧ h ≤ 23 ∧ m ≤ 59 then some h else none
    | _, _ => none
  | _ => none

/-- Model of Python `int(s)` as used by `.astype(int)` on an object column:
optional minus sign followed by digits, failure otherwise. -/
def parseInt (s : String) : Option Int :=
  match s.data with
  | '-' :: body => (digitsToNat body).map (fun n => -(n : Int))
  | body => (digitsToNat body).map (fun n => (n : Int))

/-- Date coercion lifted to cells: a missing cell coerces to NaT. -/
def dateOfCell : Cell → Option DateVal
  | .missing => none
  | .val s => parseDate s

/-- Numeric coercion lifted to cells: a missing cell coerces to NaN. -/
def numOfCell : Cell → Option Dec
  | .missing => none
  | .val s => parseNum s

/-- `%H:%M` hour derivation lifted to cells: missing gives NaN. -/
def hourOfCell : Cell → Option Nat
  | .missing => none
  | .val s => parseHourMin s

/-- Integer cast lifted to cells (`astype(int)` elementwise). -/
def intOfCell : Cell → Option Int
  | .missing => none
  | .val s => parseInt s

/-- One raw row after the projection `df[COLUMNS_TO_KEEP]`: exactly the
eleven retained columns, each holding a raw cell. -/
structure RawRow where
  num_acc : Cell
  date : Cell
  lat : Cell
  long : Cell
  age : Cell
  grav : Cell
  sexe : Cell
  atm : Cell
  lum : Cell
  dep : Cell
  hrmn : Cell
deriving DecidableEq, Repr

/-- A row after step 3 (type coercions) and the `hour` derivation /
`hrmn` drop of the script: `date`, `lat`, `long` coerced (`none` = NaN),
`hour` derived from `hrmn`, all other columns untouched. -/
structure CoercedRow where
  num_acc : Cell
  date : Option DateVal
  lat : Option Dec
  long : Option Dec
  age : Cell
  grav : Cell
  sexe : Cell
  atm : Cell
  lum : Cell
  dep : Cell
  hour : Option Nat
deriving DecidableEq, Repr

/-- The coercion block of `clean_data`:
`df['date'] = pd.to_datetime(df['date'], errors='coerce')`,
`df['lat'] = pd.to_numeric(df['lat'], errors='coerce')`,
`df['long'] = pd.to_numeric(df['long'], errors='coerce')`,
`df['hour'] = pd.to_datetime(df['hrmn'], format='%H:%M', errors='coerce').dt.hour`,
`df = df.drop(columns=['hrmn'])`. -/
def coerceRow (r : RawRow) : CoercedRow :=
  { num_acc := r.num_acc
    date := dateOfCell r.date
    lat := numOfCell r.lat
    long := numOfCell r.long
    age := r.age
    grav := r.grav
    sexe := r.sexe
    atm := r.atm
    lum := r.lum
    dep := r.dep
    hour := hourOfCell r.hrmn }

/-- Row predicate of `df.dropna(subset=['date','lat','long','age','hour'])`:
keep the row iff none of the five subset columns is missing. -/
def keepComplete (c : CoercedRow) : Bool :=
  c.date.isSome && c.lat.isSome && c.long.isSome && !c.age.isMissing && c.hour.isSome

/-- Row predicate of `df_cleaned[df_cleaned['lat'] != 0]`: a row is kept
unless its latitude value equals 0 (a NaN latitude compares unequal to 0
and would be kept, but `dropna` already removed those rows). -/
def keepLat (c : CoercedRow) : Bool :=
  match c.lat with
  | some d => ! d.isZero
  | none => true

/-- A fully cleaned row: `age` and `hour` cast to integers, the five
critical columns known present; there is no `hrmn` field. -/
structure CleanedRow where
  num_acc : Cell
  date : DateVal
  lat : Dec
  long : Dec
  age : Int
  grav : Cell
  sexe : Cell
  atm : Cell
  lum : Cell
  dep : Cell
  hour : Nat
deriving DecidableEq, Repr

/-- Step 5 of the script on one surviving row:
`df['age'].astype(int)` and `df['hour'].astype(int)`. The `date`, `lat`
and `long` options are unwrapped (they are `some` for every row that
passed `dropna`); the only genuine failure source is a non-integral
textual `age`, since `age` was never numerically coerced. -/
def finalizeRow (c : CoercedRow) : Option CleanedRow :=
  match c.date, c.lat, c.long, intOfCell c.age, c.hour with
  | some d, some la, some lo, some a, some h =>
    some { num_acc := c.num_acc, date := d, lat := la, long := lo, age := a,
           grav := c.grav, sexe := c.sexe, atm := c.atm, lum := c.lum,
           dep := c.dep, hour := h }
  | _, _, _, _, _ => none

/-- Elementwise fallible map: `some` only if every element succeeds
(`astype(int)` raises on the first bad element, aborting the run). -/
def traverseOption (f : α → Option β) : List α → Option (List β)
  | [] => some []
  | a :: l =>
    match f a, traverseOption f l with
    | some b, some bs => some (b :: bs)
    | _, _ => none

/-- The row pipeline of `clean_data` after projection: coerce every row,
drop incomplete rows, drop zero-latitude rows, then cast `age`/`hour`
(`none` when a cast fails, modelling the uncaught exception). -/
def clean_data_rows (rs : List RawRow) : Option (List CleanedRow) :=
  traverseOption finalizeRow (((rs.map coerceRow).filter keepComplete).filter keepLat)

/-- Per-row summary of the pipeline: whether the filters keep row `r`. -/
def survives (r : RawRow) : Bool :=
  keepComplete (coerceRow r) && keepLat (coerceRow r)

/-- Per-row summary of the pipeline: the cleaned image of a single raw
row, `none` if the row is dropped by a filter or its `age` cast fails. -/
def cleanRow (r : RawRow) : Option CleanedRow :=
  if survives r then finalizeRow (coerceRow r) else none

/-- Rows removed by `dropna` (part of the script's dropped-row count). -/
def droppedIncomplete (rs : List RawRow) : Nat :=
  (rs.map coerceRow).countP (fun c => !keepComplete c)

/-- Rows removed by the `lat != 0` filter (rest of the dropped count). -/
def droppedZeroLat (rs : List RawRow) : Nat :=
  ((rs.map coerceRow).filter keepComplete).countP (fun c => !keepLat c)


/-- `COLUMNS_TO_KEEP` from the script: the columns retained by the
projection `df[COLUMNS_TO_KEEP]`, in order. -/
def COLUMNS_TO_KEEP : List String :=
  ["Num_Acc", "date", "lat", "long", "age", "grav", "sexe", "atm", "lum", "dep", "hrmn"]

/-- Effect of `df[name] = ...` on the column list: an existing column is
overwritten in place, a new one is appended at the end. -/
def assignColumn (cols : List String) (name : String) : List String :=
  if name ∈ cols then cols else cols ++ [name]

/-- Effect of `df.drop(columns=[name])` on the column list. -/
def dropColumn (cols : List String) (name : String) : List String :=
  cols.filter (fun c => c != name)

/-- The column list of the cleaned table, following the script's column
operations in order: projection to `COLUMNS_TO_KEEP`, the assignments to
`date`, `lat`, `long` and `hour`, and the drop of `hrmn` (the later
`dropna`, row filters and `astype` assignments do not change columns). -/
def cleanedColumns : List String :=
  dropColumn
    (assignColumn
      (assignColumn (assignColumn (assignColumn COLUMNS_TO_KEEP "date") "lat") "long")
      "hour")
    "hrmn"

/-- A raw table as read by `pd.read_csv`: a header naming the columns and
rows of cells, a row's i-th cell belonging to the i-th column. -/
structure RawTable where
  header : List String
  rows : List (List Cell)
deriving DecidableEq, Repr

/-- Look up the cell of column `name` in a row (first matching column;
a short row yields a missing cell). -/
def getCol (header : List String) (row : List Cell) (name : String) : Cell :=
  match header.findIdx? (fun c => c == name) with
  | some i => row.getD i Cell.missing
  | none => Cell.missing

/-- The projection `df[COLUMNS_TO_KEEP]` applied to one row. -/
def projectRow (header : List String) (row : List Cell) : RawRow :=
  { num_acc := getCol header row "Num_Acc"
    date := getCol header row "date"
    lat := getCol header row "lat"
    long := getCol header row "long"
    age := getCol header row "age"
    grav := getCol header row "grav"
    sexe := getCol header row "sexe"
    atm := getCol header row "atm"
    lum := getCol header row "lum"
    dep := getCol header row "dep"
    hrmn := getCol header row "hrmn" }

/-- The whole in-memory transform of `clean_data` on a loaded table:
projection (a missing column raises `KeyError`, modelled as `none`),
then the row pipeline; the result is the cleaned column list and rows. -/
def clean_data_table (t : RawTable) : Option (List String × List CleanedRow) :=
  if COLUMNS_TO_KEEP.all (fun c => t.header.contains c) then
    match clean_data_rows (t.rows.map (projectRow t.header)) with
    | some out => some (cleanedColumns, out)
    | none => none
  else none

/-- Render a natural number on at least two digits (datetime formatting). -/
def renderNat2 (n : Nat) : String :=
  if n < 10 then "0" ++ toString n else toString n

/-- Render a date as `YYYY-MM-DD`, as `to_csv` prints a datetime column
of date-only values. -/
def renderDate (d : DateVal) : String :=
  toString d.1 ++ "-" ++ renderNat2 d.2.1 ++ "-" ++ renderNat2 d.2.2

/-- Render an exact decimal value back to decimal text. -/
def renderDec (d : Dec) : String :=
  let sgn := if d.mantissa < 0 then "-" else ""
  let digits := (toString d.mantissa.natAbs).data
  if d.scale = 0 then sgn ++ String.mk digits
  else
    let padded := List.replicate (d.scale + 1 - digits.length) '0' ++ digits
    let k := padded.length - d.scale
    sgn ++ String.mk (padded.take k) ++ "." ++ String.mk (padded.drop k)

/-- Render one cell for `to_csv` (missing prints as an empty field). -/
def renderCell : Cell → String
  | .missing => ""
  | .val s => s

/-- Render one cleaned row for `to_csv`, fields comma-separated in the
cleaned column order. -/
def renderCleanedRow (r : CleanedRow) : String :=
  String.intercalate ","
    [renderCell r.num_acc, renderDate r.date, renderDec r.lat, renderDec r.long,
     toString r.age, renderCell r.grav, renderCell r.sexe, renderCell r.atm,
     renderCell r.lum, renderCell r.dep, toString r.hour]

/-- Model of `df.to_csv(path, index=False)`: header line then one line
per row, newline-terminated; no index column is emitted. -/
def serializeTable (cols : List String) (rows : List CleanedRow) : String :=
  String.intercalate "\n" (String.intercalate "," cols :: rows.map renderCleanedRow) ++ "\n"

/-- Path constants of the script (`BASE_DIR`-relative parts; the absolute
prefix depends on the installation location, not on the transform). -/
def RAW_DATA_PATH : String := "data/raw/accidentsVelo-full.csv"

/-- Relative output path of the script. -/
def CLEANED_DATA_PATH : String := "data/cleaned/accidents_cleaned.csv"

/-- Observable outcome of one run: the error message reported, if any,
and the bytes written to the output file, if any. -/
structure Outcome where
  error : Option String
  written : Option String
deriving DecidableEq, Repr

/-- One invocation of `clean_data`. `none` input models a missing raw
file: `read_csv` raises `FileNotFoundError`, the handler prints the
error message naming the path and returns, and nothing is written. With
a loaded table, a `KeyError` from the projection or a `ValueError` from
`astype(int)` is uncaught, so the run aborts before `to_csv`; otherwise
the serialized cleaned table is written. -/
def clean_data (input : Option RawTable) : Outcome :=
  match input with
  | none =>
    { error := some ("ERREUR: Fichier non trouvé à " ++ RAW_DATA_PATH), written := none }
  | some t =>
    match clean_data_table t with
    | some (cols, rows) => { error := none, written := some (serializeTable cols rows) }
    | none => { error := some "uncaught exception", written := none }

/-- Split one CSV line into cells (empty field = missing). No quoting:
the model covers the quote-free fragment of `read_csv`. -/
def parseCSVLine (l : List Char) : List Cell :=
  (splitOnChar ',' l).map (fun f => if f = [] then Cell.missing else Cell.val (String.mk f))

/-- Parse file bytes into a `RawTable`: first non-blank line is the
header, remaining non-blank lines are rows (`read_csv` skips blank
lines by default). -/
def parseCSVTable (s : String) : RawTable :=
  match (splitOnChar '\n' s.data).filter (fun l => !l.isEmpty) with
  | [] => { header := [], rows := [] }
  | h :: rest =>
    { header := (splitOnChar ',' h).map String.mk
      rows := rest.map parseCSVLine }

/-- A full run from file bytes (`none` = the raw file does not exist) to
the observable outcome. -/
def runPipeline (file : Option String) : Outcome :=
  clean_data (file.map parseCSVTable)

/-! ### Concrete rows used by witnesses and counterexamples -/

/-- The spec's example row: all fields valid. -/
def rowExample : RawRow :=
  { num_acc := .val "1", date := .val "2021-05-01", lat := .val "48.85",
    long := .val "2.35", age := .val "34", grav := .val "3", sexe := .val "1",
    atm := .val "1", lum := .val "1", dep := .val "75", hrmn := .val "14:30" }

/-- The cleaned image of `rowExample`. -/
def cleanedExample : CleanedRow :=
  { num_acc := .val "1", date := (2021, 5, 1), lat := ⟨4885, 2⟩, long := ⟨235, 2⟩,
    age := 34, grav := .val "3", sexe := .val "1", atm := .val "1",
    lum := .val "1", dep := .val "75", hour := 14 }

/-- A row valid except for an unparseable `hrmn`. -/
def rowBadHrmn : RawRow := { rowExample with hrmn := .val "bad" }

/-- A row valid except that its latitude is exactly 0. -/
def rowZeroLat : RawRow := { rowExample with lat := .val "0" }

/-- A row valid with longitude exactly 0 and non-zero latitude. -/
def rowZeroLong : RawRow := { rowExample with long := .val "0" }

/-- A row valid except that `age` holds the non-numeric text `"abc"`. -/
def rowBadAge : RawRow := { rowExample with age := .val "abc" }

/-- A raw table carrying an extra column besides the eleven kept ones. -/
def tableExample : RawTable :=
  { header := ["extra", "Num_Acc", "date", "lat", "long", "age", "grav",
               "sexe", "atm", "lum", "dep", "hrmn"]
    rows := [[Cell.val "x", Cell.val "1", Cell.val "2021-05-01", Cell.val "48.85",
              Cell.val "2.35", Cell.val "34", Cell.val "3", Cell.val "1",
              Cell.val "1", Cell.val "1", Cell.val "75", Cell.val "14:30"]] }

/-- Example input file bytes for the full run. -/
def csvExample : String :=
  "Num_Acc,date,lat,long,age,grav,sexe,atm,lum,dep,hrmn\n1,2021-05-01,48.85,2.35,34,3,1,1,1,75,14:30\n"

/-! ### Helper lemmas about the pipeline -/

theorem traverseOption_eq_some {α β : Type} (f : α → Option β) (l : List α) (out : List β)
    (h : traverseOption f l = some out) : out = l.filterMap f ∧ out.length = l.length := by
  induction l generalizing out with
  | nil =>
    simp only [traverseOption, Option.some.injEq] at h
    subst h; simp
  | cons a l ih =>
    cases hfa : f a with
    | none => simp [traverseOption, hfa] at h
    | some b =>
      cases hl : traverseOption f l with
      | none => simp [traverseOption, hfa, hl] at h
      | some bs =>
        obtain ⟨h1, h2⟩ := ih bs hl
        simp only [traverseOption, hfa, hl, Option.some.injEq] at h
        subst h
        refine ⟨?_, ?_⟩
        · simp [List.filterMap_cons, hfa, h1]
        · simp [h2]

theorem survivors_eq (rs : List RawRow) :
    ((rs.map coerceRow).filter keepComplete).filter keepLat = (rs.filter survives).map coerceRow := by
  induction rs with
  | nil => simp
  | cons r rs ih =>
    cases h1 : keepComplete (coerceRow r) with
    | false => simp [List.filter_cons, survives, h1, ih]
    | true =>
      cases h2 : keepLat (coerceRow r) with
      | false => simp [List.filter_cons, survives, h1, h2, ih]
      | true => simp [List.filter_cons, survives, h1, h2, ih]

theorem filterMap_surviving (rs : List RawRow) :
    (rs.filter survives).filterMap (fun r => finalizeRow (coerceRow r)) = rs.filterMap cleanRow := by
  induction rs with
  | nil => simp
  | cons r rs ih =>
    cases hs : survives r with
    | false => simp [List.filter_cons, hs, List.filterMap_cons, cleanRow, ih]
    | true => simp [List.filter_cons, hs, List.filterMap_cons, cleanRow, ih]

theorem clean_data_rows_eq (rs : List RawRow) (out : List CleanedRow)
    (h : clean_data_rows rs = some out) : out = rs.filterMap cleanRow := by
  unfold clean_data_rows at h
  rw [survivors_eq] at h
  obtain ⟨h1, -⟩ := traverseOption_eq_some _ _ _ h
  rw [h1, List.filterMap_map]
  simpa [Function.comp] using filterMap_surviving rs

theorem countP_partition {α : Type} (p : α → Bool) (m : List α) :
    m.countP p + m.countP (fun a => !p a) = m.length := by
  induction m with
  | nil => simp
  | cons a m ih => cases hp : p a <;> simp [List.countP_cons, hp] <;> omega

theorem clean_data_rows_length (rs : List RawRow) (out : List CleanedRow)
    (h : clean_data_rows rs = some out) :
    out.length + droppedIncomplete rs + droppedZeroLat rs = rs.length := by
  unfold clean_data_rows at h
  obtain ⟨-, h2⟩ := traverseOption_eq_some _ _ _ h
  have e1 : (((rs.map coerceRow).filter keepComplete).filter keepLat).length
      = ((rs.map coerceRow).filter keepComplete).countP keepLat :=
    (List.countP_eq_length_filter keepLat ((rs.map coerceRow).filter keepComplete)).symm
  have e2 := countP_partition keepLat ((rs.map coerceRow).filter keepComplete)
  have e3 : ((rs.map coerceRow).filter keepComplete).length
      = (rs.map coerceRow).countP keepComplete :=
    (List.countP_eq_length_filter keepComplete (rs.map coerceRow)).symm
  have e4 := countP_partition keepComplete (rs.map coerceRow)
  have e5 : (rs.map coerceRow).length = rs.length := List.length_map _ _
  unfold droppedIncomplete droppedZeroLat
  omega

theorem parseHourMin_le (s : String) (h : Nat) (hp : parseHourMin s = some h) : h ≤ 23 := by
  unfold parseHourMin at hp
  repeat' split at hp
  all_goals simp_all

theorem finalizeRow_hour (c : CoercedRow) (cr : CleanedRow)
    (hf : finalizeRow c = some cr) : c.hour = some cr.hour := by
  unfold finalizeRow at hf
  repeat' split at hf
  all_goals simp_all
  subst hf
  rfl

theorem intOfCell_not_missing (c : Cell) (a : Int) (h : intOfCell c = some a) :
    c.isMissing = false := by
  cases c with
  | missing => simp [intOfCell] at h
  | val s => rfl

theorem clean_data_rows_drop (pre suf : List RawRow) (r : RawRow) (hs : survives r = false) :
    clean_data_rows (pre ++ r :: suf) = clean_data_rows (pre ++ suf) := by
  unfold clean_data_rows
  rw [survivors_eq, survivors_eq]
  simp [List.filter_append, List.filter_cons, hs]


/-! ### Claims -/

/-- C1: every raw row with a parseable date, a numeric non-zero latitude,
a numeric longitude, a non-missing integral age and an `HH:MM`-parseable
`hrmn` is kept by the cleaning pipeline; the output row has `hour` equal
to the parsed hour component, the output schema has no `hrmn` column, and
`Num_Acc`, `grav`, `sexe`, `atm`, `lum`, `dep` are unchanged. -/
theorem C1_valid_row_kept (r : RawRow) (pre suf : List RawRow) (out : List CleanedRow)
    (d : DateVal) (la lo : Dec) (a : Int) (h : Nat)
    (hd : dateOfCell r.date = some d)
    (hla : numOfCell r.lat = some la) (hz : la.isZero = false)
    (hlo : numOfCell r.long = some lo)
    (ha : intOfCell r.age = some a)
    (hh : hourOfCell r.hrmn = some h)
    (hrun : clean_data_rows (pre ++ r :: suf) = some out) :
    (∃ cr ∈ out, cr.hour = h ∧ cr.num_acc = r.num_acc ∧ cr.grav = r.grav ∧
      cr.sexe = r.sexe ∧ cr.atm = r.atm ∧ cr.lum = r.lum ∧ cr.dep = r.dep) ∧
    "hrmn" ∉ cleanedColumns := by
  have hmiss := intOfCell_not_missing r.age a ha
  have hsurv : survives r = true := by
    simp [survives, keepComplete, keepLat, coerceRow, hd, hla, hlo, hh, hmiss, hz]
  have hclean : cleanRow r =
      some ⟨r.num_acc, d, la, lo, a, r.grav, r.sexe, r.atm, r.lum, r.dep, h⟩ := by
    simp [cleanRow, hsurv, finalizeRow, coerceRow, hd, hla, hlo, ha, hh]
  refine ⟨?_, by decide⟩
  rw [clean_data_rows_eq _ _ hrun]
  exact ⟨_, List.mem_filterMap.mpr ⟨r, by simp, hclean⟩,
    rfl, rfl, rfl, rfl, rfl, rfl, rfl⟩

/-- Witness for C1 at the spec's example row. -/
theorem C1_witness :
    dateOfCell rowExample.date = some (2021, 5, 1) ∧
    numOfCell rowExample.lat = some ⟨4885, 2⟩ ∧
    (⟨4885, 2⟩ : Dec).isZero = false ∧
    numOfCell rowExample.long = some ⟨235, 2⟩ ∧
    intOfCell rowExample.age = some 34 ∧
    hourOfCell rowExample.hrmn = some 14 ∧
    clean_data_rows ([] ++ rowExample :: []) = some [cleanedExample] ∧
    ((∃ cr ∈ [cleanedExample], cr.hour = 14 ∧ cr.num_acc = rowExample.num_acc ∧
        cr.grav = rowExample.grav ∧ cr.sexe = rowExample.sexe ∧
        cr.atm = rowExample.atm ∧ cr.lum = rowExample.lum ∧
        cr.dep = rowExample.dep) ∧
      "hrmn" ∉ cleanedColumns) :=
  ⟨by decide, by decide, by decide, by decide, by decide, by decide, by decide,
    C1_valid_row_kept rowExample [] [] [cleanedExample] (2021, 5, 1) ⟨4885, 2⟩
      ⟨235, 2⟩ 34 14 (by decide) (by decide) (by decide) (by decide) (by decide)
      (by decide) (by decide)⟩

/-- C3: a raw row whose `date`, `lat` or `long` is missing or coerces to
missing, whose `age` is missing, or whose `hrmn` does not parse as
`HH:MM`, is dropped: it contributes nothing to the output. -/
theorem C3_incomplete_row_dropped (r : RawRow) (pre suf : List RawRow)
    (hbad : dateOfCell r.date = none ∨ numOfCell r.lat = none ∨
      numOfCell r.long = none ∨ r.age.isMissing = true ∨ hourOfCell r.hrmn = none) :
    cleanRow r = none ∧
    clean_data_rows (pre ++ r :: suf) = clean_data_rows (pre ++ suf) := by
  have hk : keepComplete (coerceRow r) = false := by
    rcases hbad with h | h | h | h | h <;> simp [keepComplete, coerceRow, h]
  have hs : survives r = false := by simp [survives, hk]
  exact ⟨by simp [cleanRow, hs], clean_data_rows_drop pre suf r hs⟩

/-- Witness for C3 at a row whose `hrmn` is the unparseable `"bad"`. -/
theorem C3_witness :
    (dateOfCell rowBadHrmn.date = none ∨ numOfCell rowBadHrmn.lat = none ∨
      numOfCell rowBadHrmn.long = none ∨ rowBadHrmn.age.isMissing = true ∨
      hourOfCell rowBadHrmn.hrmn = none) ∧
    (cleanRow rowBadHrmn = none ∧
      clean_data_rows ([] ++ rowBadHrmn :: []) = clean_data_rows ([] ++ [])) :=
  ⟨by decide, C3_incomplete_row_dropped rowBadHrmn [] [] (by decide)⟩

/-- C4: a row whose latitude equals exactly 0 is dropped even when every
other field is valid, and the sentinel filter tests latitude only: a row
with longitude 0 and a valid non-zero latitude survives. -/
theorem C4_zero_lat_dropped (r₁ r₂ : RawRow) (pre suf : List RawRow)
    (z : Dec) (d : DateVal) (la lo : Dec) (a : Int) (h : Nat)
    (hz1 : numOfCell r₁.lat = some z) (hz2 : z.isZero = true)
    (hd : dateOfCell r₂.date = some d)
    (hla : numOfCell r₂.lat = some la) (hlaz : la.isZero = false)
    (hlo : numOfCell r₂.long = some lo) (hloz : lo.isZero = true)
    (ha : intOfCell r₂.age = some a)
    (hh : hourOfCell r₂.hrmn = some h) :
    clean_data_rows (pre ++ r₁ :: suf) = clean_data_rows (pre ++ suf) ∧
    (cleanRow r₂).isSome = true := by
  have hs1 : survives r₁ = false := by
    simp [survives, keepLat, coerceRow, hz1, hz2]
  have hmiss := intOfCell_not_missing r₂.age a ha
  have hs2 : survives r₂ = true := by
    simp [survives, keepComplete, keepLat, coerceRow, hd, hla, hlo, hh, hmiss, hlaz]
  refine ⟨clean_data_rows_drop pre suf r₁ hs1, ?_⟩
  simp [cleanRow, hs2, finalizeRow, coerceRow, hd, hla, hlo, ha, hh]

/-- Witness for C4 at a zero-latitude row and a zero-longitude row. -/
theorem C4_witness :
    numOfCell rowZeroLat.lat = some ⟨0, 0⟩ ∧ (⟨0, 0⟩ : Dec).isZero = true ∧
    dateOfCell rowZeroLong.date = some (2021, 5, 1) ∧
    numOfCell rowZeroLong.lat = some ⟨4885, 2⟩ ∧
    (⟨4885, 2⟩ : Dec).isZero = false ∧
    numOfCell rowZeroLong.long = some ⟨0, 0⟩ ∧ (⟨0, 0⟩ : Dec).isZero = true ∧
    intOfCell rowZeroLong.age = some 34 ∧
    hourOfCell rowZeroLong.hrmn = some 14 ∧
    (clean_data_rows ([] ++ rowZeroLat :: []) = clean_data_rows ([] ++ []) ∧
      (cleanRow rowZeroLong).isSome = true) :=
  ⟨by decide, by decide, by decide, by decide, by decide, by decide, by decide,
    by decide, by decide,
    C4_zero_lat_dropped rowZeroLat rowZeroLong [] [] ⟨0, 0⟩ (2021, 5, 1)
      ⟨4885, 2⟩ ⟨0, 0⟩ 34 14 (by decide) (by decide) (by decide) (by decide)
      (by decide) (by decide) (by decide) (by decide) (by decide)⟩

/-- C2 counterexample: the row whose `age` cell holds `"abc"` passes the
`dropna` filter (its `age` is non-missing) and the latitude filter, yet
`astype(int)` fails on it, so the finalize-types cast is not total: the
claim that casting never fails is false at this input. -/
theorem C2_counterexample :
    keepComplete (coerceRow rowBadAge) = true ∧
    keepLat (coerceRow rowBadAge) = true ∧
    finalizeRow (coerceRow rowBadAge) = none ∧
    clean_data_rows [rowBadAge] = none := by decide

/-- C2 (amended): after the `dropna` filter, every remaining row has a
non-null integral `hour` (so casting `hour` is total) and a non-null
`age`; but `age` was never numerically coerced, so the `age` cast
succeeds exactly when the `age` text is an integer literal, and the
finalize step can fail. -/
theorem C2_age_cast_not_total (c : CoercedRow) (hk : keepComplete c = true) :
    c.hour.isSome = true ∧ c.age.isMissing = false ∧
    (finalizeRow c).isSome = (intOfCell c.age).isSome := by
  unfold keepComplete at hk
  simp only [Bool.and_eq_true, Bool.not_eq_true'] at hk
  obtain ⟨⟨⟨⟨hdate, hlat⟩, hlong⟩, hage⟩, hhour⟩ := hk
  refine ⟨hhour, hage, ?_⟩
  obtain ⟨d, hd⟩ := Option.isSome_iff_exists.mp hdate
  obtain ⟨la, hla⟩ := Option.isSome_iff_exists.mp hlat
  obtain ⟨lo, hlo⟩ := Option.isSome_iff_exists.mp hlong
  obtain ⟨h, hh⟩ := Option.isSome_iff_exists.mp hhour
  cases hia : intOfCell c.age with
  | none => simp [finalizeRow, hd, hla, hlo, hia, hh]
  | some a => simp [finalizeRow, hd, hla, hlo, hia, hh]

/-- Witness for the amended C2 at the example row's coercion. -/
theorem C2_witness :
    keepComplete (coerceRow rowExample) = true ∧
    ((coerceRow rowExample).hour.isSome = true ∧
      (coerceRow rowExample).age.isMissing = false ∧
      (finalizeRow (coerceRow rowExample)).isSome =
        (intOfCell (coerceRow rowExample).age).isSome) :=
  ⟨by decide, C2_age_cast_not_total (coerceRow rowExample) (by decide)⟩

/-- C5: whenever the pipeline succeeds, the output table has exactly the
eleven cleaned-schema columns in order, and in particular no `hrmn`
column, regardless of extra columns in the raw input. -/
theorem C5_output_columns (t : RawTable) (cols : List String) (out : List CleanedRow)
    (h : clean_data_table t = some (cols, out)) :
    cols = ["Num_Acc", "date", "lat", "long", "age", "grav", "sexe", "atm",
      "lum", "dep", "hour"] ∧ "hrmn" ∉ cols := by
  unfold clean_data_table at h
  split at h
  · split at h
    · simp only [Option.some.injEq, Prod.mk.injEq] at h
      obtain ⟨h1, -⟩ := h
      subst h1
      exact ⟨by decide, by decide⟩
    · simp at h
  · simp at h

/-- Witness for C5 at a table with an extra `extra` column. -/
theorem C5_witness :
    clean_data_table tableExample =
      some (["Num_Acc", "date", "lat", "long", "age", "grav", "sexe", "atm",
        "lum", "dep", "hour"], [cleanedExample]) ∧
    (["Num_Acc", "date", "lat", "long", "age", "grav", "sexe", "atm",
        "lum", "dep", "hour"] =
      ["Num_Acc", "date", "lat", "long", "age", "grav", "sexe", "atm",
        "lum", "dep", "hour"] ∧
      "hrmn" ∉ ["Num_Acc", "date", "lat", "long", "age", "grav", "sexe",
        "atm", "lum", "dep", "hour"]) :=
  ⟨by decide, C5_output_columns tableExample _ [cleanedExample] (by decide)⟩

/-- C6: whenever the pipeline succeeds, the output row count plus the
rows dropped by the missing-data filter plus the rows dropped by the
zero-latitude filter equals the projected input row count; no other step
adds or removes rows. -/
theorem C6_row_accounting (rs : List RawRow) (out : List CleanedRow)
    (h : clean_data_rows rs = some out) :
    out.length + droppedIncomplete rs + droppedZeroLat rs = rs.length :=
  clean_data_rows_length rs out h

/-- Witness for C6 on a three-row input with one row dropped by each
filter. -/
theorem C6_witness :
    clean_data_rows [rowExample, rowBadHrmn, rowZeroLat] = some [cleanedExample] ∧
    [cleanedExample].length + droppedIncomplete [rowExample, rowBadHrmn, rowZeroLat] +
      droppedZeroLat [rowExample, rowBadHrmn, rowZeroLat] =
      [rowExample, rowBadHrmn, rowZeroLat].length :=
  ⟨by decide, C6_row_accounting [rowExample, rowBadHrmn, rowZeroLat] [cleanedExample] (by decide)⟩

/-- C7: when the raw input file does not exist, the run reports the
`FileNotFoundError` handler's message, which contains the raw path, and
writes nothing to the output path. -/
theorem C7_missing_file :
    clean_data none =
      { error := some ("ERREUR: Fichier non trouvé à " ++ RAW_DATA_PATH),
        written := none } ∧
    (∃ before after, (clean_data none).error = some (before ++ RAW_DATA_PATH ++ after)) ∧
    (clean_data none).written = none :=
  ⟨rfl, ⟨"ERREUR: Fichier non trouvé à ", "", by decide⟩, rfl⟩

/-- C8: the pipeline is deterministic: two runs on byte-identical input
files produce identical outcomes, in particular byte-identical output
files (the run reads no state other than the input bytes, so the model
is a pure function of them). -/
theorem C8_deterministic (s₁ s₂ : Option String) (h : s₁ = s₂) :
    runPipeline s₁ = runPipeline s₂ := by
  rw [h]

/-- Witness for C8 at a concrete input file. -/
theorem C8_witness :
    (some csvExample : Option String) = some csvExample ∧
    runPipeline (some csvExample) = runPipeline (some csvExample) :=
  ⟨rfl, C8_deterministic (some csvExample) (some csvExample) rfl⟩

/-- C9: every row of a successful output has its derived `hour` field in
the range `[0, 23]` (`hour` is a natural number, so it is a non-negative
integer, and it is the hour component of a parsed `HH:MM` time). -/
theorem C9_hour_in_range (rs : List RawRow) (out : List CleanedRow) (cr : CleanedRow)
    (hrun : clean_data_rows rs = some out) (hmem : cr ∈ out) :
    cr.hour ≤ 23 := by
  rw [clean_data_rows_eq rs out hrun] at hmem
  obtain ⟨r, -, hcr⟩ := List.mem_filterMap.mp hmem
  unfold cleanRow at hcr
  split at hcr
  · have hhour : hourOfCell r.hrmn = some cr.hour := finalizeRow_hour _ _ hcr
    cases hc : r.hrmn with
    | missing => rw [hc] at hhour; simp [hourOfCell] at hhour
    | val s =>
      rw [hc] at hhour
      exact parseHourMin_le s cr.hour hhour
  · exact absurd hcr (by simp)

/-- Witness for C9 at the example row. -/
theorem C9_witness :
    clean_data_rows [rowExample] = some [cleanedExample] ∧
    cleanedExample ∈ [cleanedExample] ∧ cleanedExample.hour ≤ 23 :=
  ⟨by decide, by simp,
    C9_hour_in_range [rowExample] [cleanedExample] cleanedExample (by decide) (by simp)⟩

/-- C10: the pipeline preserves input row order and duplicates: a
successful output is exactly the per-row cleaning function mapped over
the surviving input rows in their original relative order (no sorting
and no deduplication occurs). -/
theorem C10_order_preserved (rs : List RawRow) (out : List CleanedRow)
    (hrun : clean_data_rows rs = some out) :
    out = rs.filterMap cleanRow :=
  clean_data_rows_eq rs out hrun

/-- Witness for C10 on an input containing a duplicated row. -/
theorem C10_witness :
    clean_data_rows [rowExample, rowZeroLat, rowExample] =
      some [cleanedExample, cleanedExample] ∧
    [cleanedExample, cleanedExample] =
      [rowExample, rowZeroLat, rowExample].filterMap cleanRow :=
  ⟨by decide,
    C10_order_preserved [rowExample, rowZeroLat, rowExample]
      [cleanedExample, cleanedExample] (by decide)⟩
